import Mathlib

/-!
Verification of the Device Interaction Engine (ai_agent): shallow embedding of
`command_validator.py`, `executor.py`, `feedback_parser.py` and the Linux
interface parser of `context_builder.py`, with theorems settling the stated
properties of the specification.

Python string primitives (strip, lower, upper, startswith, substring
containment, split variants, splitlines) are modelled over `List Char`;
`re.search` with `re.IGNORECASE` is modelled by a small matcher covering
exactly the constructs the destructive patterns use: literal characters,
`\s+` and `\b`.
-/

namespace AiAgent

/-- A single-quote character (code 39), used to build the literal Python
message strings without apostrophes in this source. -/
def sq : String := String.singleton (Char.ofNat 39)

/-- Python `str.strip` / `str.isspace` whitespace test. -/
def pyIsSpace (c : Char) : Bool := c.isWhitespace

/-- Strip leading and trailing whitespace from a character list. -/
def listStrip (l : List Char) : List Char :=
  ((l.dropWhile pyIsSpace).reverse.dropWhile pyIsSpace).reverse

/-- Python `s.strip()`. -/
def pyStrip (s : String) : String := ⟨listStrip s.data⟩

/-- Python `s.lower()` (ASCII case folding, as in all inputs here). -/
def pyLower (s : String) : String := ⟨s.data.map Char.toLower⟩

/-- Python `s.upper()`. -/
def pyUpper (s : String) : String := ⟨s.data.map Char.toUpper⟩

/-- Boolean list-prefix test. -/
def isPrefixOfL : List Char → List Char → Bool
  | [], _ => true
  | _ :: _, [] => false
  | a :: as, b :: bs => a == b && isPrefixOfL as bs

/-- Python `s.startswith(pre)`. -/
def pyStartswith (s pre : String) : Bool := isPrefixOfL pre.data s.data

/-- Substring occurrence over character lists (Python `pat in s` backend). -/
def containsSub (pat : List Char) : List Char → Bool
  | [] => isPrefixOfL pat []
  | c :: rest => isPrefixOfL pat (c :: rest) || containsSub pat rest

/-- Python `pat in s` (substring containment). -/
def strContains (s pat : String) : Bool := containsSub pat.data s.data

/-! ## A matcher for the destructive-pattern regexes

The patterns in `command_validator.py` use only literal characters, `\s+`
and `\b`; `re.search(pattern, command, re.IGNORECASE)` is modelled by
`reSearch` below. -/

/-- One token of a destructive pattern: a literal character (already
lower-cased), `\s+`, or a word boundary `\b`. -/
inductive RTok where
  | lit (c : Char)
  | blank
  | bound
deriving DecidableEq, Repr

/-- Regex word character, Python `\w` (ASCII inputs). -/
def isWordChar (c : Char) : Bool := c.isAlphanum || c == '_'

/-- `\b` holds between `prev` and the next character. -/
def atBoundary (prev : Option Char) (rest : List Char) : Bool :=
  let a := match prev with | some c => isWordChar c | none => false
  let b := match rest with | c :: _ => isWordChar c | [] => false
  a != b

/-- Match a token list at the current position; `prev` is the character just
before the position (for `\b`). Case-insensitive on literals.  Structural
recursion on a fuel that bounds the sum of tokens and characters, which
strictly decreases at every step, so the fuel passed by `matchAt` below
never runs out. -/
def matchAtF : Nat → List RTok → Option Char → List Char → Bool
  | 0, _, _, _ => false
  | _ + 1, [], _, _ => true
  | f + 1, .lit c :: ts, _, d :: rest => (d.toLower == c) && matchAtF f ts (some d) rest
  | _ + 1, .lit _ :: _, _, [] => false
  | f + 1, .blank :: ts, _, d :: rest =>
      pyIsSpace d && (matchAtF f ts (some d) rest || matchAtF f (.blank :: ts) (some d) rest)
  | _ + 1, .blank :: _, _, [] => false
  | f + 1, .bound :: ts, prev, rest => atBoundary prev rest && matchAtF f ts prev rest

/-- Match a token list at the current position. -/
def matchAt (ts : List RTok) (prev : Option Char) (l : List Char) : Bool :=
  matchAtF (ts.length + l.length + 1) ts prev l

/-- Try to match at every position (Python `re.search`). -/
def searchFrom (ts : List RTok) : Option Char → List Char → Bool
  | prev, [] => matchAt ts prev []
  | prev, d :: rest => matchAt ts prev (d :: rest) || searchFrom ts (some d) rest

/-- `re.search(pat, s, re.IGNORECASE) is not None`. -/
def reSearch (pat : List RTok) (s : String) : Bool := searchFrom pat none s.data

/-- Literal pattern segment. -/
def lits (s : String) : List RTok := s.data.map RTok.lit

/-! ## CommandValidator -/

/-- `destructive_patterns["linux"]`. -/
def linuxPatterns : List (List RTok) :=
  [ RTok.bound :: lits "rm" ++ [RTok.blank] ++ lits "-rf"
  , RTok.bound :: lits "mkfs"
  , RTok.bound :: lits "fdisk"
  , RTok.bound :: lits "dd" ++ [RTok.bound]
  , lits "reboot"
  , lits "shutdown"
  , lits "poweroff" ]

/-- `destructive_patterns["cisco_ios"]`. -/
def ciscoPatterns : List (List RTok) :=
  [ lits "erase" ++ [RTok.blank] ++ lits "startup-config"
  , lits "delete" ++ [RTok.blank] ++ lits "flash:"
  , lits "reload"
  , lits "write" ++ [RTok.blank] ++ lits "erase" ]

/-- `destructive_patterns["paloalto_panos"]`. -/
def panosPatterns : List (List RTok) :=
  [ lits "delete" ++ [RTok.blank] ++ lits "rulebase"
  , lits "request" ++ [RTok.blank] ++ lits "system" ++ [RTok.blank] ++ lits "private-data-reset" ]

/-- The `self.destructive_patterns` dict: key lookup by exact string. -/
def destructive_patterns (os_type : String) : Option (List (List RTok)) :=
  if os_type = "linux" then some linuxPatterns
  else if os_type = "cisco_ios" then some ciscoPatterns
  else if os_type = "paloalto_panos" then some panosPatterns
  else none

/-- The destructive-pattern loop of `is_safe`: some pattern of the dialect
matches (false when the os_type is not a key of the table). -/
def destructiveHit (os_type command : String) : Bool :=
  match destructive_patterns os_type with
  | some pats => pats.any (fun p => reSearch p command)
  | none => false

/-- `CommandValidator.is_safe`: destructive-pattern check first (returns
False on a match), then the empty/whitespace check, else True. -/
def is_safe (command os_type : String) : Bool :=
  if destructiveHit os_type command then false
  else if pyStrip command = "" then false
  else true

/-- `self.cisco_config_mode_commands`. -/
def cisco_config_mode_commands : List String :=
  [ "interface", "router ospf", "ip route", "access-list"
  , "crypto map", "snmp-server", "logging host", "ntp server"
  , "hostname", "banner motd", "enable secret", "line vty", "ip address" ]

/-- `CommandValidator.needs_config_mode`. -/
def needs_config_mode (command os_type : String) : Bool :=
  if os_type ≠ "cisco_ios" then false
  else
    let command_lower := pyLower (pyStrip command)
    if cisco_config_mode_commands.any (fun p => pyStartswith command_lower (pyLower p)) then true
    else if pyStartswith command_lower "set " then true
    else false

/-! ## Executor

`Executor.execute_commands_on_device(commands_str, os_type)` is embedded over
the line list of `commands_str` (its Python `splitlines()`), parameterised by
`connected` (the `self.device_connector.client` check) and by `respond`,
the device transport: `respond i` is the text returned by the `i`-th
`execute_command` call of the run.  The outcome records, besides the two
Python return values (`output`, `status`), the list of commands passed to
`execute_command`, in order. -/

structure ExecOutcome where
  sent : List String
  output : Option String
  status : String

/-- `[cmd.strip() for cmd in commands_str.splitlines() if cmd.strip()]`. -/
def commandsOf (lines : List String) : List String :=
  (lines.map pyStrip).filter (fun c => c ≠ "")

/-- The Python message `f"Command '{cmd}' is unsafe."`. -/
def unsafeStatus (cmd : String) : String :=
  "Command " ++ sq ++ cmd ++ sq ++ " is unsafe."

/-- The main command loop: sends each command, accumulating the transcript
chunks `$ {cmd}\n{output}\n` and the sent list; `idx` is the index of the
next `execute_command` call.  (The inline error check of the loop only
prints: `error_occurred` is never assigned.) -/
def runCommands (respond : Nat → String) : List String → Nat → String × List String
  | [], _ => ("", [])
  | c :: rest, idx =>
    let r := runCommands respond rest (idx + 1)
    ("$ " ++ c ++ "\n" ++ respond idx ++ "\n" ++ r.1, c :: r.2)

/-- `Executor.execute_commands_on_device`. -/
def execute_commands_on_device (connected : Bool) (lines : List String)
    (os_type : String) (respond : Nat → String) : ExecOutcome :=
  if !connected then ⟨[], none, "Device not connected."⟩
  else
    let commands_to_execute := commandsOf lines
    if commands_to_execute = [] then ⟨[], some "", "No commands provided."⟩
    else
      match commands_to_execute.find? (fun c => !is_safe c os_type) with
      | some cmd => ⟨[], none, unsafeStatus cmd⟩
      | none =>
        -- confirmation is hard-wired to "yes" in the source
        if os_type = "cisco_ios"
            && commands_to_execute.any (fun c => needs_config_mode c os_type) then
          let conf_t_output := respond 0
          let entryAcc := "configure terminal\n" ++ conf_t_output ++ "\n"
          if !strContains conf_t_output "Enter configuration commands"
              && strContains conf_t_output "% Invalid input" then
            ⟨["configure terminal"], some entryAcc, "Failed to enter Cisco config mode."⟩
          else
            let r := runCommands respond commands_to_execute 1
            let endOut := respond (1 + commands_to_execute.length)
            ⟨"configure terminal" :: r.2 ++ ["end"],
             some (entryAcc ++ r.1 ++ "end\n" ++ endOut ++ "\n"),
             "Commands executed successfully."⟩
        else
          let r := runCommands respond commands_to_execute 0
          -- error_occurred is still False here, so the success status is returned
          ⟨r.2, some r.1, "Commands executed successfully."⟩

/-! ## FeedbackParser -/

structure FeedbackResult where
  success : Bool
  message : String
  data : Option String
  error_line : Option String

/-- The `output is None` message of `parse_output`. -/
def noResponseMsg : String :=
  "No output received from device (connection issue or command produced no STDOUT/STDERR)."

/-- The closing success message of `parse_output`. -/
def successMsg : String :=
  "Command appears to have executed successfully (no obvious errors found)."

/-- `generic_error_keywords` of `parse_output`. -/
def generic_error_keywords : List String :=
  ["error:", "% invalid input", "command rejected", "unknown command", "failure", "failed"]

/-- Python `str.splitlines` over the newline character, on character lists
(no trailing empty line for a trailing newline). -/
def splitlinesGo (acc : List Char) : List Char → List (List Char)
  | [] => [acc.reverse]
  | c :: rest =>
    if c = '\n' then
      match rest with
      | [] => [acc.reverse]
      | _ => acc.reverse :: splitlinesGo [] rest
    else splitlinesGo (c :: acc) rest

/-- Python `s.splitlines()`. -/
def pySplitlines (s : String) : List String :=
  match s.data with
  | [] => []
  | l => (splitlinesGo [] l).map (fun cs => (⟨cs⟩ : String))

/-- The error-line scan: first line whose lower-cased text contains the key
(`error_line` stays unset when no line matches). -/
def firstLineContaining (key : String) (ls : List String) : Option String :=
  ls.find? (fun line => strContains (pyLower line) key)

/-- The closing `if result["success"]` message rewrite of `parse_output`. -/
def finalize (r : FeedbackResult) : FeedbackResult :=
  if r.success then { r with message := successMsg } else r

/-- The two-entry `cisco_error_patterns` dict, in insertion order. -/
def cisco_error_patterns : List (String × String) :=
  [("incomplete command", "Incomplete command."), ("ambiguous command", "Ambiguous command.")]

/-- `FeedbackParser.parse_output`.  The cisco `"% "` block of the source is a
no-op (both branches fall through) and is not represented. -/
def parse_output (command : String) (output : Option String) (os_type : String) :
    FeedbackResult :=
  match output with
  | none => ⟨false, noResponseMsg, none, none⟩
  | some out =>
    let output_lower := pyLower out
    match generic_error_keywords.find? (fun k => strContains output_lower k) with
    | some k =>
        ⟨false, "Potential error detected: " ++ sq ++ k ++ sq ++ " found in output.",
         none, firstLineContaining k (pySplitlines out)⟩
    | none =>
      if os_type = "linux" then
        let base : FeedbackResult :=
          if strContains command "useradd" && strContains output_lower "already exists" then
            ⟨false, "User likely already exists.", none, none⟩
          else ⟨true, "Command output received.", none, none⟩
        if pyStartswith command "apt install" || pyStartswith command "apt-get install" then
          match ["unable to locate package", "e:"].find?
              (fun k => strContains output_lower k) with
          | some k =>
              ⟨false, "Apt install command failed. Package not found or other apt error.",
               none, firstLineContaining k (pySplitlines out)⟩
          | none => finalize base
        else finalize base
      else if os_type = "cisco_ios" then
        match cisco_error_patterns.find? (fun p => strContains output_lower p.1) with
        | some p => ⟨false, p.2, none, firstLineContaining p.1 (pySplitlines out)⟩
        | none => finalize ⟨true, "Command output received.", none, none⟩
      else if os_type = "paloalto_panos" then
        match ["invalid syntax", "unknown command"].find?
            (fun k => strContains output_lower k) with
        | some k =>
            ⟨false, "PAN-OS command error: " ++ sq ++ k ++ sq ++ " found.",
             none, firstLineContaining k (pySplitlines out)⟩
        | none =>
          if strContains output_lower "<response status=\"error\"" then
            ⟨false, "PAN-OS API returned an error.", none,
             firstLineContaining "<response status=\"error\"" (pySplitlines out)⟩
          else finalize ⟨true, "Command output received.", none, none⟩
      else finalize ⟨true, "Command output received.", none, none⟩

/-! ## ContextBuilder: `_parse_linux_interfaces`

The parser is embedded over the line list of the `ip addr` output
(`output.splitlines()`); the Python dict of records is an association list
in insertion order (`upsert` replaces in place, as dict assignment does). -/

/-- One interface record: the Python dict starts `{}` and may gain a
`status` and an `ip_address` key. -/
structure LinuxIface where
  status : Option String
  ip_address : Option String
deriving DecidableEq, Repr

def emptyIface : LinuxIface := ⟨none, none⟩

/-- Dict assignment `d[k] = v`: replace in place, else append. -/
def upsert (k : String) (v : LinuxIface) :
    List (String × LinuxIface) → List (String × LinuxIface)
  | [] => [(k, v)]
  | (k1, v1) :: rest => if k1 = k then (k, v) :: rest else (k1, v1) :: upsert k v rest

/-- `if 'ip_address' not in d[k]: d[k]['ip_address'] = ip` (first `inet`
line wins). -/
def putIpFirst (k ip : String) :
    List (String × LinuxIface) → List (String × LinuxIface)
  | [] => []
  | (k1, v1) :: rest =>
    if k1 = k then
      (k1, if v1.ip_address = none then { v1 with ip_address := some ip } else v1) :: rest
    else (k1, v1) :: putIpFirst k ip rest

/-- Split off the text before the first occurrence of the character, with
the remainder after it. -/
def splitFirstCh (c : Char) : List Char → Option (List Char × List Char)
  | [] => none
  | d :: rest =>
    if d = c then some ([], rest)
    else match splitFirstCh c rest with
         | none => none
         | some (a, b) => some (d :: a, b)

/-- Python `s.split(sep, maxsplit)` for a one-character separator. -/
def splitChMax (c : Char) : Nat → List Char → List (List Char)
  | 0, s => [s]
  | n + 1, s =>
    match splitFirstCh c s with
    | none => [s]
    | some (a, b) => a :: splitChMax c n b

/-- Python `s.split(sep)` (no maxsplit) for a one-character separator,
keeping empty fields. -/
def splitChGo (c : Char) (acc : List Char) : List Char → List (List Char)
  | [] => [acc.reverse]
  | d :: rest => if d = c then acc.reverse :: splitChGo c [] rest else splitChGo c (d :: acc) rest

/-- Python `s.split(sep)` on strings, one-character separator. -/
def splitChAll (c : Char) (s : String) : List String :=
  (splitChGo c [] s.data).map (fun cs => (⟨cs⟩ : String))

/-- Python `s.split(sep)` for a multi-character separator `p :: ps`,
non-overlapping leftmost occurrences.  Structural recursion on a fuel that
bounds the number of remaining characters (every step consumes at least
one), so the fuel passed by `pySplitSub` below never runs out. -/
def splitSubGoF (p : Char) (ps : List Char) : Nat → List Char → List Char → List (List Char)
  | _, acc, [] => [acc.reverse]
  | 0, acc, l => [acc.reverse ++ l]
  | f + 1, acc, d :: rest =>
    if isPrefixOfL (p :: ps) (d :: rest) then
      acc.reverse :: splitSubGoF p ps f [] (rest.drop ps.length)
    else splitSubGoF p ps f (d :: acc) rest

/-- Python `s.split(pat)` on strings (`pat` nonempty in every use here). -/
def pySplitSub (pat s : String) : List String :=
  match pat.data with
  | [] => [s]
  | p :: ps => (splitSubGoF p ps s.data.length [] s.data).map (fun cs => (⟨cs⟩ : String))

/-- Python `s.split()` with no argument: split on whitespace runs, no empty
fields. -/
def splitWsGo (acc : List Char) : List Char → List (List Char)
  | [] => if acc = [] then [] else [acc.reverse]
  | c :: rest =>
    if pyIsSpace c then
      if acc = [] then splitWsGo [] rest else acc.reverse :: splitWsGo [] rest
    else splitWsGo (c :: acc) rest

/-- Python `s.split()` on strings. -/
def pySplitWs (s : String) : List String :=
  (splitWsGo [] s.data).map (fun cs => (⟨cs⟩ : String))

/-- The status computation of a header line from its `details_part`
(`parts[2]`): the token after `state `, else the `<...>` flag list
(`UP` among the comma-separated flags), else `UNKNOWN`. -/
def headerStatus (details : String) : String :=
  if strContains details "state " then
    let seg := (pySplitSub "state " details).getD 1 ""
    pyUpper ((splitChAll ' ' seg).getD 0 "")
  else if details.data.contains '<' && details.data.contains '>' then
    let flags := (splitChAll '>' ((splitChAll '<' details).getD 1 "")).getD 0 ""
    if (splitChAll ',' (pyUpper flags)).contains "UP" then "UP" else "UNKNOWN"
  else "UNKNOWN"

/-- The header-line branch of the loop (the `try` block), on the stripped
`parts[1]` name and the optional `parts[2]` details: reset the record for
the interface name, then assign its status unless the 3-field split fell
short (`parts[2]` raising IndexError, caught with the record left `{}` and
the current name cleared).  The special name `lo` is skipped. -/
def headerUpdate (name : String) (details? : Option String)
    (ifaces : List (String × LinuxIface)) :
    Option String × List (String × LinuxIface) :=
  if name = "lo" then (none, ifaces)
  else
    match details? with
    | none => (none, upsert name emptyIface ifaces)
    | some details =>
      (some name, upsert name ⟨some (headerStatus details), none⟩ (upsert name emptyIface ifaces))

/-- The `inet ` branch of the loop: the first such line of the current
interface records the address (`ip_parts[1]`). -/
def inetUpdate (name : String) (stripped : String) (ifaces : List (String × LinuxIface)) :
    List (String × LinuxIface) :=
  let ip_parts := pySplitWs stripped
  if ip_parts.length ≥ 2 then putIpFirst name (ip_parts.getD 1 "") ifaces
  else ifaces

/-- One loop iteration of `_parse_linux_interfaces`: state is
`(current_interface_name, interfaces)`. -/
def stepLinuxIface (st : Option String × List (String × LinuxIface)) (line : String) :
    Option String × List (String × LinuxIface) :=
  if !pyStartswith line " " && line.data.contains ':' then
    let parts := (splitChMax ':' 2 line.data).map (fun cs => (⟨cs⟩ : String))
    headerUpdate (pyStrip (parts.getD 1 "")) (parts.get? 2) st.2
  else
    match st.1 with
    | some name =>
      -- Python truthiness of current_interface_name: non-empty string
      if name ≠ "" && pyStartswith (pyStrip line) "inet " then
        (st.1, inetUpdate name (pyStrip line) st.2)
      else (st.1, st.2)
    | none => (st.1, st.2)

/-- Truthiness filter of the closing dict comprehension:
`if v and v.get('status')`. -/
def keepIface (v : LinuxIface) : Bool :=
  (v.status.isSome || v.ip_address.isSome) && v.status.getD "" ≠ ""

/-- `ContextBuilder._parse_linux_interfaces`, over the line list of the
`ip addr` output. -/
def parse_linux_interfaces (lines : List String) : List (String × LinuxIface) :=
  (lines.foldl stepLinuxIface (none, [])).2.filter (fun kv => keepIface kv.2)

/-! ## Supporting lemmas -/

/-- The sent-command list of the main loop is exactly the command list, in
order, for every transport and start index. -/
theorem runCommands_sent (respond : Nat → String) (cmds : List String) :
    ∀ idx : Nat, (runCommands respond cmds idx).2 = cmds := by
  induction cmds with
  | nil => intro idx; rfl
  | cons c rest ih =>
    intro idx
    exact congrArg (List.cons c) (ih (idx + 1))

/-- Stripping an all-whitespace character list leaves nothing. -/
theorem listStrip_eq_nil (l : List Char) (h : ∀ c ∈ l, pyIsSpace c) :
    listStrip l = [] := by
  have h1 : l.dropWhile pyIsSpace = [] := by
    induction l with
    | nil => rfl
    | cons c cs ih =>
      rw [List.dropWhile_cons, if_pos (h c (List.mem_cons_self c cs))]
      exact ih (fun d hd => h d (List.mem_cons_of_mem c hd))
  simp [listStrip, h1]

/-- Stripping an all-whitespace string leaves the empty string. -/
theorem pyStrip_eq_empty (s : String) (h : ∀ c ∈ s.data, c.isWhitespace) :
    pyStrip s = "" := by
  unfold pyStrip
  rw [listStrip_eq_nil s.data h]

theorem upsert_mem (k : String) (v : LinuxIface) (l : List (String × LinuxIface)) :
    ∀ kv ∈ upsert k v l, kv.1 = k ∨ kv ∈ l := by
  induction l with
  | nil =>
    intro kv hkv
    simp only [upsert, List.mem_singleton] at hkv
    exact Or.inl (by rw [hkv])
  | cons hd tl ih =>
    intro kv hkv
    by_cases hk : hd.1 = k
    · rw [upsert, if_pos hk, List.mem_cons] at hkv
      rcases hkv with h1 | h1
      · exact Or.inl (by rw [h1])
      · exact Or.inr (List.mem_cons_of_mem hd h1)
    · rw [upsert, if_neg hk, List.mem_cons] at hkv
      rcases hkv with h1 | h1
      · exact Or.inr (by rw [h1]; exact List.mem_cons_self hd tl)
      · rcases ih kv h1 with h2 | h2
        · exact Or.inl h2
        · exact Or.inr (List.mem_cons_of_mem hd h2)

theorem putIpFirst_mem (k ip : String) (l : List (String × LinuxIface)) :
    ∀ kv ∈ putIpFirst k ip l, ∃ kv0 ∈ l, kv.1 = kv0.1 := by
  induction l with
  | nil => intro kv hkv; cases hkv
  | cons hd tl ih =>
    intro kv hkv
    by_cases hk : hd.1 = k
    · rw [putIpFirst, if_pos hk, List.mem_cons] at hkv
      rcases hkv with h1 | h1
      · exact ⟨hd, List.mem_cons_self hd tl, by rw [h1]⟩
      · exact ⟨kv, List.mem_cons_of_mem hd h1, rfl⟩
    · rw [putIpFirst, if_neg hk, List.mem_cons] at hkv
      rcases hkv with h1 | h1
      · exact ⟨hd, List.mem_cons_self hd tl, by rw [h1]⟩
      · rcases ih kv h1 with ⟨kv0, hkv0, he⟩
        exact ⟨kv0, List.mem_cons_of_mem hd hkv0, he⟩

/-- No accumulated record is keyed `lo`. -/
def noLo (l : List (String × LinuxIface)) : Prop := ∀ kv ∈ l, kv.1 ≠ "lo"

theorem headerUpdate_noLo (name : String) (details? : Option String)
    (ifaces : List (String × LinuxIface))
    (h : noLo ifaces) : noLo (headerUpdate name details? ifaces).2 := by
  by_cases hlo : name = "lo"
  · simpa [headerUpdate, hlo] using h
  · cases details? with
    | none =>
      simp only [headerUpdate, if_neg hlo]
      intro kv hkv
      rcases upsert_mem name emptyIface ifaces kv hkv with h1 | h1
      · rw [h1]; exact hlo
      · exact h kv h1
    | some details =>
      simp only [headerUpdate, if_neg hlo]
      intro kv hkv
      rcases upsert_mem name _ _ kv hkv with h1 | h1
      · rw [h1]; exact hlo
      · rcases upsert_mem name emptyIface ifaces kv h1 with h2 | h2
        · rw [h2]; exact hlo
        · exact h kv h2

theorem inetUpdate_noLo (name stripped : String) (ifaces : List (String × LinuxIface))
    (h : noLo ifaces) : noLo (inetUpdate name stripped ifaces) := by
  simp only [inetUpdate]
  split
  · intro kv hkv
    rcases putIpFirst_mem name _ ifaces kv hkv with ⟨kv0, hkv0, he⟩
    rw [he]; exact h kv0 hkv0
  · exact h

theorem stepLinuxIface_noLo (st : Option String × List (String × LinuxIface))
    (line : String) (h : noLo st.2) : noLo (stepLinuxIface st line).2 := by
  simp only [stepLinuxIface]
  split
  · exact headerUpdate_noLo _ _ st.2 h
  · split
    · split
      · exact inetUpdate_noLo _ _ st.2 h
      · exact h
    · exact h

theorem foldl_stepLinuxIface_noLo (lines : List String) :
    ∀ st, noLo st.2 → noLo ((lines.foldl stepLinuxIface st).2) := by
  induction lines with
  | nil => intro st h; exact h
  | cons l ls ih =>
    intro st h
    exact ih (stepLinuxIface st l) (stepLinuxIface_noLo st l h)

/-! ## The claims -/

/-- C1.  For every submitted batch, an unsafe verdict on any command of the
batch makes the executor return a failure (`None` output with the unsafe
message) with no `execute_command` call for any batch command: the sent
list is empty. -/
theorem executor_aborts_on_unsafe (lines : List String) (os_type : String)
    (respond : Nat → String) (cmd : String)
    (hmem : cmd ∈ commandsOf lines) (hbad : is_safe cmd os_type = false) :
    (execute_commands_on_device true lines os_type respond).sent = []
    ∧ (execute_commands_on_device true lines os_type respond).output = none := by
  have hne : commandsOf lines ≠ [] := List.ne_nil_of_mem hmem
  have hsome : ((commandsOf lines).find? (fun c => !is_safe c os_type)).isSome := by
    rw [List.find?_isSome]
    exact ⟨cmd, hmem, by simp [hbad]⟩
  obtain ⟨c, hc⟩ := Option.isSome_iff_exists.mp hsome
  unfold execute_commands_on_device
  simp [hne, hc]

/-- C1 witness: a batch holding `rm -rf /` on linux is aborted with nothing
sent. -/
theorem executor_aborts_on_unsafe_witness :
    (execute_commands_on_device true ["date", "rm -rf /"] "linux" (fun _ => "ok")).sent = []
    ∧ (execute_commands_on_device true ["date", "rm -rf /"] "linux" (fun _ => "ok")).output
        = none :=
  executor_aborts_on_unsafe ["date", "rm -rf /"] "linux" (fun _ => "ok") "rm -rf /"
    (by decide) (by decide)

/-- C2 counterexample.  A cisco_ios batch needing configuration mode whose
mode-entry response is empty lacks the acknowledgment signature, yet the
executor does not abort: it sends the remaining batch command (and the mode
exit) and reports success. -/
theorem config_entry_counterexample :
    strContains "" "Enter configuration commands" = false
    ∧ (execute_commands_on_device true ["interface Loopback0"] "cisco_ios"
        (fun _ => "")).sent = ["configure terminal", "interface Loopback0", "end"]
    ∧ (execute_commands_on_device true ["interface Loopback0"] "cisco_ios"
        (fun _ => "")).status = "Commands executed successfully." := by
  refine ⟨by decide, by decide, by decide⟩

/-- C2 amended.  The executor aborts the batch with the
"Failed to enter Cisco config mode." status, sending only the mode-entry
command, exactly when the mode-entry response both lacks the
acknowledgment signature and contains `% Invalid input`. -/
theorem config_entry_abort (lines : List String) (respond : Nat → String)
    (hsafe : ∀ c ∈ commandsOf lines, is_safe c "cisco_ios" = true)
    (hne : commandsOf lines ≠ [])
    (hcfg : ∃ c ∈ commandsOf lines, needs_config_mode c "cisco_ios" = true)
    (hnoack : strContains (respond 0) "Enter configuration commands" = false)
    (hinv : strContains (respond 0) "% Invalid input" = true) :
    (execute_commands_on_device true lines "cisco_ios" respond).sent = ["configure terminal"]
    ∧ (execute_commands_on_device true lines "cisco_ios" respond).status
        = "Failed to enter Cisco config mode." := by
  have hfind : (commandsOf lines).find? (fun c => !is_safe c "cisco_ios") = none := by
    rw [List.find?_eq_none]
    intro x hx
    simp [hsafe x hx]
  have hany : (commandsOf lines).any (fun c => needs_config_mode c "cisco_ios") = true := by
    rw [List.any_eq_true]
    exact hcfg
  unfold execute_commands_on_device
  simp [hne, hfind, hany, hnoack, hinv]

/-- C2 amended witness: a response carrying `% Invalid input` and no
acknowledgment aborts, sending only `configure terminal`. -/
theorem config_entry_abort_witness :
    (execute_commands_on_device true ["interface Loopback0"] "cisco_ios"
      (fun _ => "% Invalid input detected")).sent = ["configure terminal"]
    ∧ (execute_commands_on_device true ["interface Loopback0"] "cisco_ios"
        (fun _ => "% Invalid input detected")).status
        = "Failed to enter Cisco config mode." :=
  config_entry_abort ["interface Loopback0"] (fun _ => "% Invalid input detected")
    (by decide) (by decide) (by decide) (by decide) (by decide)

/-- C3.  At the repository's own test input
(`test_execute_commands_with_error_in_output`), the response is classified
as a failure by the feedback parser, yet the executor reports
"Commands executed successfully.": `error_occurred` is never set, so the
overall status never aggregates per-command failures. -/
theorem executor_status_ignores_feedback :
    (parse_output "show something wrong"
       (some "blah blah\n% Invalid input detected\nblah") "linux").success = false
    ∧ (execute_commands_on_device true ["show something wrong"] "linux"
        (fun _ => "blah blah\n% Invalid input detected\nblah")).status
        = "Commands executed successfully." := by
  constructor
  · decide
  · decide

/-- C4.  An accepted cisco_ios batch with at least one command requiring
configuration mode, whose mode-entry response carries the acknowledgment
signature, sends exactly: `configure terminal`, every batch command in
submission order, then `end` — for every transport response pattern, so in
particular even when individual command responses indicate failure. -/
theorem config_mode_brackets_batch (lines : List String) (respond : Nat → String)
    (hsafe : ∀ c ∈ commandsOf lines, is_safe c "cisco_ios" = true)
    (hne : commandsOf lines ≠ [])
    (hcfg : ∃ c ∈ commandsOf lines, needs_config_mode c "cisco_ios" = true)
    (hack : strContains (respond 0) "Enter configuration commands" = true) :
    (execute_commands_on_device true lines "cisco_ios" respond).sent
      = "configure terminal" :: (commandsOf lines ++ ["end"]) := by
  have hfind : (commandsOf lines).find? (fun c => !is_safe c "cisco_ios") = none := by
    rw [List.find?_eq_none]
    intro x hx
    simp [hsafe x hx]
  have hany : (commandsOf lines).any (fun c => needs_config_mode c "cisco_ios") = true := by
    rw [List.any_eq_true]
    exact hcfg
  unfold execute_commands_on_device
  simp [hne, hfind, hany, hack, runCommands_sent]

/-- C4 witness: of three commands only the second requires configuration
mode, the responses after entry all look like failures, and still the sent
sequence is mode-entry, the three commands in order, mode-exit. -/
theorem config_mode_brackets_batch_witness :
    (execute_commands_on_device true
      ["show version", "interface Loopback0", "show clock"] "cisco_ios"
      (fun i => if i = 0 then "Enter configuration commands, one per line." else
        "% Invalid input detected")).sent
      = "configure terminal" ::
          (commandsOf ["show version", "interface Loopback0", "show clock"] ++ ["end"]) :=
  config_mode_brackets_batch ["show version", "interface Loopback0", "show clock"]
    (fun i => if i = 0 then "Enter configuration commands, one per line." else
      "% Invalid input detected")
    (by decide) (by decide) (by decide) (by decide)

/-- C5.  For every os_type, an empty or whitespace-only command line is
classified unsafe: both the destructive branch and the syntax branch of
`is_safe` return False on it. -/
theorem empty_command_unsafe (command os_type : String)
    (h : ∀ c ∈ command.data, c.isWhitespace) :
    is_safe command os_type = false := by
  have hstrip : pyStrip command = "" := pyStrip_eq_empty command h
  simp [is_safe, hstrip]

/-- C5 witness: a three-space command line on an arbitrary dialect string is
unsafe. -/
theorem empty_command_unsafe_witness : is_safe "   " "linux" = false :=
  empty_command_unsafe "   " "linux" (by decide)

/-- C6.  A command matching some destructive pattern of its dialect
(case-insensitively) is unsafe; a non-empty command of a tabled dialect
matching none is safe; in particular cisco_ios `reload` is unsafe,
cisco_ios `show ip interface brief` is safe, and linux `RM -rf /tmp/x` is
unsafe. -/
theorem classifier_matches_patterns :
    (∀ os_type command, destructiveHit os_type command = true →
      is_safe command os_type = false)
    ∧ (∀ os_type command,
        (os_type = "linux" ∨ os_type = "cisco_ios" ∨ os_type = "paloalto_panos") →
        destructiveHit os_type command = false → pyStrip command ≠ "" →
        is_safe command os_type = true)
    ∧ is_safe "reload" "cisco_ios" = false
    ∧ is_safe "show ip interface brief" "cisco_ios" = true
    ∧ is_safe "RM -rf /tmp/x" "linux" = false := by
  refine ⟨?_, ?_, by decide, by decide, by decide⟩
  · intro os c h
    simp [is_safe, h]
  · intro os c _ h hne
    simp [is_safe, h, hne]

/-- C6 witness: both general directions applied at concrete fixtures. -/
theorem classifier_matches_patterns_witness :
    is_safe "erase startup-config" "cisco_ios" = false
    ∧ is_safe "show running-config" "cisco_ios" = true :=
  ⟨classifier_matches_patterns.1 "cisco_ios" "erase startup-config" (by decide),
   classifier_matches_patterns.2.1 "cisco_ios" "show running-config"
     (Or.inr (Or.inl rfl)) (by decide) (by decide)⟩

/-- C7.  For an os_type that is not a key of the destructive-pattern table
(exact string match, so case variants like "Linux" included), the table
lookup is `none` — no destructive-pattern check runs — and every non-empty,
non-whitespace command line is classified safe. -/
theorem unknown_os_type_all_safe (os_type command : String)
    (h1 : os_type ≠ "linux") (h2 : os_type ≠ "cisco_ios")
    (h3 : os_type ≠ "paloalto_panos") (h4 : pyStrip command ≠ "") :
    destructive_patterns os_type = none ∧ is_safe command os_type = true := by
  have hp : destructive_patterns os_type = none := by
    simp [destructive_patterns, h1, h2, h3]
  refine ⟨hp, ?_⟩
  simp [is_safe, destructiveHit, hp, h4]

/-- C7 witness: `rm -rf /` is classified safe under os_type "Linux". -/
theorem unknown_os_type_all_safe_witness :
    destructive_patterns "Linux" = none ∧ is_safe "rm -rf /" "Linux" = true :=
  unknown_os_type_all_safe "Linux" "rm -rf /" (by decide) (by decide) (by decide) (by decide)

/-- C8.  For every dialect and command, an absent response is classified as
failure with the no-response message before any keyword scanning (the
result carries no error line and no data). -/
theorem no_response_is_failure (command os_type : String) :
    parse_output command none os_type =
      FeedbackResult.mk false noResponseMsg none none := rfl

/-- C9.  For cisco_ios, an output containing the benign
`%SYS-5-CONFIG_I: Configured from console by console` marker and no other
error markers — no generic error keyword and no dialect-specific error
string — is classified as success with the success message. -/
theorem benign_config_marker_success (command out : String)
    (_hmark : strContains out "%SYS-5-CONFIG_I: Configured from console by console" = true)
    (hgen : ∀ k ∈ generic_error_keywords, strContains (pyLower out) k = false)
    (hcisco : ∀ p ∈ cisco_error_patterns, strContains (pyLower out) p.1 = false) :
    (parse_output command (some out) "cisco_ios").success = true
    ∧ (parse_output command (some out) "cisco_ios").message = successMsg := by
  have hg : generic_error_keywords.find? (fun k => strContains (pyLower out) k) = none := by
    rw [List.find?_eq_none]
    intro k hk
    simp [hgen k hk]
  have hc : cisco_error_patterns.find? (fun p => strContains (pyLower out) p.1) = none := by
    rw [List.find?_eq_none]
    intro p hp
    simp [hcisco p hp]
  simp [parse_output, hg, hc, finalize]

/-- C9 witness: the literal fixture line is classified success. -/
theorem benign_config_marker_success_witness :
    (parse_output "copy run start"
      (some "%SYS-5-CONFIG_I: Configured from console by console") "cisco_ios").success = true
    ∧ (parse_output "copy run start"
        (some "%SYS-5-CONFIG_I: Configured from console by console") "cisco_ios").message
        = successMsg :=
  benign_config_marker_success "copy run start"
    "%SYS-5-CONFIG_I: Configured from console by console"
    (by decide) (by decide) (by decide)

/-- C10.  Every record of the mapping returned by the Linux interface
parser has a populated (non-empty) status, is not the loopback `lo`, and is
not an empty record left behind by a malformed header line. -/
theorem linux_iface_invariant (lines : List String) :
    ∀ kv ∈ parse_linux_interfaces lines,
      kv.1 ≠ "lo" ∧ kv.2.status.getD "" ≠ "" ∧ kv.2 ≠ emptyIface := by
  intro kv hkv
  unfold parse_linux_interfaces at hkv
  rw [List.mem_filter] at hkv
  obtain ⟨hmem, hkeep⟩ := hkv
  rw [keepIface, Bool.and_eq_true] at hkeep
  have hstat : kv.2.status.getD "" ≠ "" := of_decide_eq_true hkeep.2
  refine ⟨?_, hstat, ?_⟩
  · exact foldl_stepLinuxIface_noLo lines (none, []) (by intro kv h; cases h) kv hmem
  · intro he
    rw [he] at hstat
    exact hstat rfl

/-- A concrete `ip addr` fixture (from the repository's own test data):
a loopback block followed by a physical interface block. -/
def ifaceFixtureLines : List String :=
  [ "1: lo: <LOOPBACK,UP,LOWER_UP> mtu 65536 qdisc noqueue state UNKNOWN group default qlen 1000"
  , "    inet 127.0.0.1/8 scope host lo"
  , "2: eth0: <BROADCAST,MULTICAST,UP,LOWER_UP> mtu 1500 qdisc fq_codel state UP group default qlen 1000"
  , "    inet 192.168.1.100/24 brd 192.168.1.255 scope global dynamic eth0" ]

/-- The `eth0` record the fixture parses to. -/
def eth0Record : String × LinuxIface :=
  ("eth0", LinuxIface.mk (some "UP") (some "192.168.1.100/24"))

/-- C10 witness: the theorem applied to the `eth0` record produced from the
repository's own `ip addr` fixture, whose parse holds `eth0` but not `lo`. -/
theorem linux_iface_invariant_witness :
    eth0Record ∈ parse_linux_interfaces ifaceFixtureLines
    ∧ (eth0Record.1 ≠ "lo" ∧ eth0Record.2.status.getD "" ≠ ""
        ∧ eth0Record.2 ≠ emptyIface) :=
  ⟨by decide, linux_iface_invariant ifaceFixtureLines eth0Record (by decide)⟩

end AiAgent
